import Mathlib

set_option maxHeartbeats 1000000
set_option maxRecDepth 4096

/-!
Formal model of the Protect-link Telegram bot.

The repository holds two near-duplicate revisions of the bot:
`src/main.py` (embedded below in the namespace `MainPy`) and the earlier
draft `src/deepseek_python_20251206_9072e4.py` (embedded in the namespace
`DSRev`).  The four MongoDB collections (links, captcha, users, broadcasts)
are modelled as Lean lists; `find_one` is `List.find?` (first match),
`delete_one` is `List.eraseP` (erase first match), `delete_many` is a
filter, `insert_one` appends.  Store-native TTL sweeps, timestamps and the
Telegram transport are environment effects: timestamps appear as abstract
`Nat` ticks, the transport's nondeterminism is passed in as explicit
oracles (membership-check result, per-recipient delivery outcome, the
secure random generator as a stream `Nat → String`), and outbound messages
are returned as a list of `Reply` values.
-/

/-- ProtectedLink record as stored by `protect` (src/main.py:533-539):
`encoded` token, `group_link` target URL, creator id, creation tick and
`verification_count` (the spec's `releaseCount`). -/
structure Link where
  encoded : String
  group_link : String
  created_by : Int
  created_at : Nat
  verification_count : Nat
deriving Repr, DecidableEq

/-- Challenge record as stored by `handle_verification_start`
(src/main.py:326-331): `(user_id, encoded)` pair plus the 5-digit code.
The `created_at` tick only feeds the store-native 300 s TTL and is omitted. -/
structure Captcha where
  user_id : Int
  encoded : String
  captcha_code : String
deriving Repr, DecidableEq

/-- BroadcastRun record as stored by the deepseek revision's broadcast
(src/deepseek_python_20251206_9072e4.py:511-521, 585-595).  `src/main.py`
never writes this collection.  The purely descriptive payload fields
(message_type, message_text, timestamps) are omitted; no modelled operation
reads them. -/
structure BRun where
  broadcast_id : String
  admin_id : Int
  total_users : Nat
  sent_count : Nat
  failed_count : Nat
  status : String
deriving Repr, DecidableEq

/-- The persisted state: the links, captcha, users and broadcasts
collections.  Recipients are carried by their `user_id` key, the only
field the modelled operations branch on. -/
structure DB where
  links : List Link
  captchas : List Captcha
  users : List Int
  broadcasts : List BRun
deriving Repr, DecidableEq

/-- Outbound messages, abstracted to the decision-relevant payload.
`releaseButton` is main.py's one-shot direct-open InlineKeyboardButton
bound to the real group link (src/main.py:603-606); `releaseText` is the
deepseek revision's plain-text link release (deepseek:277-282);
`verifyPrompt` is the "Verify Now" reveal-code control (src/main.py:336). -/
inductive Reply where
  | welcome
  | channelVerification
  | verifyPrompt (encoded : String)
  | invalidLink
  | releaseButton (url : String)
  | releaseText (url : String)
  | linkExpired
  | incorrectCode
  | noPendingVerification
  | usePrivate
  | protectUsage
  | invalidTelegramLink
  | protectSuccess (token : String)
  | genericError
  | adminOnly
  | broadcastUsage
  | noUsers
  | broadcastReport (succeeded failed : Nat)
deriving Repr, DecidableEq

/-- Python's `str.strip()`: drop whitespace from both ends.  Written over
the character list so that the kernel can evaluate it on literals. -/
def pyStrip (s : String) : String :=
  String.mk (((s.data.dropWhile Char.isWhitespace).reverse.dropWhile Char.isWhitespace).reverse)

/-- Python's `str.lower()`, over the character list. -/
def pyLower (s : String) : String :=
  String.mk (s.data.map Char.toLower)

/-- Python's `sub in s` substring test, over character lists: `sub` occurs
somewhere in the list. -/
def occursIn (sub : List Char) : List Char → Bool
  | [] => sub.isEmpty
  | c :: rest => sub.isPrefixOf (c :: rest) || occursIn sub rest

/-- `ensure_user_in_db` (src/main.py:116-149, deepseek:76-96): upsert on the
`user_id` key.  On the id-set model this inserts the id if absent. -/
def ensure_user_in_db (us : List Int) (u : Int) : List Int :=
  if us.contains u then us else us ++ [u]

/-- `captcha_collection.find_one({"user_id": u})` (src/main.py:596). -/
def findCaptchaUser (cs : List Captcha) (u : Int) : Option Captcha :=
  cs.find? (fun c => c.user_id == u)

/-- `captcha_collection.delete_one({"user_id": u})` (src/main.py:626, 638,
645): erase the first challenge of this recipient. -/
def delete_one_user (cs : List Captcha) (u : Int) : List Captcha :=
  cs.eraseP (fun c => c.user_id == u)

/-- `captcha_collection.delete_many({"user_id": u, "encoded": e})`
(src/main.py:313): drop every challenge of this (recipient, token) pair. -/
def delete_many_pair (cs : List Captcha) (u : Int) (e : String) : List Captcha :=
  cs.filter (fun c => !(c.user_id == u && c.encoded == e))

/-- `links_collection.find_one({"encoded": e})` (src/main.py:306, 600). -/
def findLink (ls : List Link) (e : String) : Option Link :=
  ls.find? (fun l => l.encoded == e)

/-- `links_collection.update_one({"encoded": e}, {"$inc":
{"verification_count": 1}})` (src/main.py:629-632): bump the counter of the
first (by the unique index: the only) link with this token. -/
def incVerification : List Link → String → List Link
  | [], _ => []
  | l :: ls, e =>
    if l.encoded == e then
      {l with verification_count := l.verification_count + 1} :: ls
    else
      l :: incVerification ls e

/-- `captcha_collection.find_one({"captcha_code": code}) is not None`
(src/main.py:319, 323): does any live challenge carry this code? -/
def hasCode (cs : List Captcha) (code : String) : Bool :=
  cs.any (fun c => c.captcha_code == code)

/-- The collision-retry loop of src/main.py:319-324, with the generator's
successive outputs given as the stream `gen`.  `fuel` mirrors the
`retry_count < 5` bound; the candidate `gen i` is only re-drawn while fuel
remains and the candidate collides with a live code. -/
def retryCode (cs : List Captcha) (gen : Nat → String) : Nat → Nat → String
  | i, 0 => gen i
  | i, fuel + 1 => if hasCode cs (gen i) then retryCode cs gen (i + 1) fuel else gen i

/-- The code finally kept by src/main.py:316-324: the first of at most six
candidates `gen 0 .. gen 5` that does not collide, or `gen 5` (collision
notwithstanding) once the five retries are spent. -/
def pickCode (cs : List Captcha) (gen : Nat → String) : String :=
  retryCode cs gen 0 5

/-- Outcome of `context.bot.get_chat_member` as seen by
`is_user_in_channel` (src/main.py:200-223): a status string, a BadRequest,
a Forbidden, or any other (unexpected / transport) error. -/
inductive ChatMemberResult where
  | ok (status : String)
  | badRequest (msg : String)
  | forbidden
  | otherError
deriving Repr, DecidableEq

/-- `is_user_in_channel` (src/main.py:192-223).  With no SUPPORT_CHANNEL_ID
configured (gating disabled) it returns True; with a status it accepts
member / administrator / creator; every error branch — all four BadRequest
cases, Forbidden, and the outer unexpected-exception handler — returns
False. -/
def is_user_in_channel (gatingEnabled : Bool) (res : ChatMemberResult) : Bool :=
  if !gatingEnabled then true
  else
    match res with
    | .ok status => status == "member" || status == "administrator" || status == "creator"
    | .badRequest _ => false
    | .forbidden => false
    | .otherError => false

/-- Character class `[a-zA-Z0-9_-]` of the invite-code regexes
(src/main.py:269-274). -/
def isInviteChar (c : Char) : Bool := c.isAlphanum || c == '_' || c == '-'

/-- Character class `[a-zA-Z0-9_]` of the public-name regex
(src/main.py:271). -/
def isNameChar (c : Char) : Bool := c.isAlphanum || c == '_'

/-- Character class `[a-zA-Z0-9_=&-]` of the joinchat query-string regex
(src/main.py:274). -/
def isQueryChar (c : Char) : Bool :=
  c.isAlphanum || c == '_' || c == '=' || c == '&' || c == '-'

/-- The anchored `^https://(t\.me|telegram\.me)/` part shared by all six
patterns of `validate_telegram_link`: strip the scheme and host, return the
remaining path as a character list. -/
def stripHost (s : String) : Option (List Char) :=
  if "https://t.me/".data.isPrefixOf s.data then some (s.data.drop 13)
  else if "https://telegram.me/".data.isPrefixOf s.data then some (s.data.drop 20)
  else none

/-- Pattern `joinchat/[a-zA-Z0-9_-]+$` (src/main.py:269). -/
def matchJoinchat (r : List Char) : Bool :=
  "joinchat/".data.isPrefixOf r &&
    (let x := r.drop 9
     !x.isEmpty && x.all isInviteChar)

/-- Pattern `\+[a-zA-Z0-9_-]+$` (src/main.py:270). -/
def matchPlus (r : List Char) : Bool :=
  "+".data.isPrefixOf r &&
    (let x := r.drop 1
     !x.isEmpty && x.all isInviteChar)

/-- Pattern `[a-zA-Z0-9_]{5,}$` (src/main.py:271). -/
def matchPublicName (r : List Char) : Bool :=
  decide (5 ≤ r.length) && r.all isNameChar

/-- Pattern `i/[a-zA-Z0-9_-]+$` (src/main.py:272). -/
def matchISlash (r : List Char) : Bool :=
  "i/".data.isPrefixOf r &&
    (let x := r.drop 2
     !x.isEmpty && x.all isInviteChar)

/-- The inclusive scalar ranges of Unicode's decimal-digit category Nd
(Unicode 14.0, the table CPython 3.11's `re` consults for `\d` on str
patterns): sixty-two runs of ten digits each, ASCII 0-9 first. -/
def ndDigitRanges : List (Nat × Nat) :=
  [ (0x30, 0x39), (0x660, 0x669), (0x6f0, 0x6f9), (0x7c0, 0x7c9),
    (0x966, 0x96f), (0x9e6, 0x9ef), (0xa66, 0xa6f), (0xae6, 0xaef),
    (0xb66, 0xb6f), (0xbe6, 0xbef), (0xc66, 0xc6f), (0xce6, 0xcef),
    (0xd66, 0xd6f), (0xde6, 0xdef), (0xe50, 0xe59), (0xed0, 0xed9),
    (0xf20, 0xf29), (0x1040, 0x1049), (0x1090, 0x1099), (0x17e0, 0x17e9),
    (0x1810, 0x1819), (0x1946, 0x194f), (0x19d0, 0x19d9), (0x1a80, 0x1a89),
    (0x1a90, 0x1a99), (0x1b50, 0x1b59), (0x1bb0, 0x1bb9), (0x1c40, 0x1c49),
    (0x1c50, 0x1c59), (0xa620, 0xa629), (0xa8d0, 0xa8d9), (0xa900, 0xa909),
    (0xa9d0, 0xa9d9), (0xa9f0, 0xa9f9), (0xaa50, 0xaa59), (0xabf0, 0xabf9),
    (0xff10, 0xff19), (0x104a0, 0x104a9), (0x10d30, 0x10d39),
    (0x11066, 0x1106f), (0x110f0, 0x110f9), (0x11136, 0x1113f),
    (0x111d0, 0x111d9), (0x112f0, 0x112f9), (0x11450, 0x11459),
    (0x114d0, 0x114d9), (0x11650, 0x11659), (0x116c0, 0x116c9),
    (0x11730, 0x11739), (0x118e0, 0x118e9), (0x11950, 0x11959),
    (0x11c50, 0x11c59), (0x11d50, 0x11d59), (0x11da0, 0x11da9),
    (0x16a60, 0x16a69), (0x16ac0, 0x16ac9), (0x16b50, 0x16b59),
    (0x1d7ce, 0x1d7ff), (0x1e140, 0x1e149), (0x1e2f0, 0x1e2f9),
    (0x1e950, 0x1e959), (0x1fbf0, 0x1fbf9)]

/-- Python's `\d` on a str pattern without `re.ASCII`: any Unicode decimal
digit (category Nd), not only ASCII 0-9. -/
def isDigitNd (c : Char) : Bool :=
  ndDigitRanges.any (fun r => r.1 ≤ c.toNat && c.toNat ≤ r.2)

/-- Pattern `c/\d+$` (src/main.py:273).  `\d` is the full Unicode
decimal-digit class: `https://t.me/c/٥٥٥٥٥` (Arabic-Indic digits) is
accepted, exactly as the source's regex accepts it. -/
def matchCSlash (r : List Char) : Bool :=
  "c/".data.isPrefixOf r &&
    (let x := r.drop 2
     !x.isEmpty && x.all isDigitNd)

/-- Pattern `joinchat/[a-zA-Z0-9_-]+\?[a-zA-Z0-9_=&-]+$` (src/main.py:274).
Neither character class admits `?`, so a full regex match is forced to
split at the first `?`: a maximal nonempty invite-class run, the `?`, and
a nonempty query-class remainder. -/
def matchJoinchatQuery (r : List Char) : Bool :=
  "joinchat/".data.isPrefixOf r &&
    (let x := r.drop 9
     let a := x.takeWhile isInviteChar
     match x.dropWhile isInviteChar with
     | '?' :: b => !a.isEmpty && !b.isEmpty && b.all isQueryChar
     | _ => false)

/-- `validate_telegram_link` (src/main.py:266-281): the link is accepted
iff one of the six anchored patterns matches in full.  `\d` is embedded as
the full Unicode decimal-digit category (see `isDigitNd`).  One nuance of
Python's `re` is deliberately not carried over: its `$` also tolerates one
trailing newline, but command arguments are produced by whitespace
splitting and cannot contain one. -/
def validate_telegram_link (link : String) : Bool :=
  match stripHost link with
  | none => false
  | some r =>
    matchJoinchat r || matchPlus r || matchPublicName r ||
    matchISlash r || matchCSlash r || matchJoinchatQuery r

/-- The permanently-unreachable test of src/main.py:720:
`"blocked" in str(e).lower() or "chat not found" in str(e).lower()`. -/
def isPermanentFailure (e : String) : Bool :=
  occursIn "blocked".data (pyLower e).data ||
  occursIn "chat not found".data (pyLower e).data

/-- The fan-out loop shared by both revisions' broadcast functions
(src/main.py:691-721, deepseek:536-568).  `send` is the delivery oracle
(`none` = delivered, `some e` = exception text `e`); `perm` is the
revision's permanently-unreachable test.  Returns (succeeded, failed,
remaining users, delivery-attempt log); a permanently failed recipient is
deleted from the users collection (`delete_one({"user_id": uid})`). -/
def broadcastLoop (perm : String → Bool) (send : Int → Option String) :
    List Int → List Int → Nat → Nat → List Int → Nat × Nat × List Int × List Int
  | [], users, s, f, log => (s, f, users, log)
  | uid :: rest, users, s, f, log =>
    match send uid with
    | none => broadcastLoop perm send rest users (s + 1) f (log ++ [uid])
    | some e =>
      broadcastLoop perm send rest
        (if perm e then users.eraseP (fun v => v == uid) else users)
        s (f + 1) (log ++ [uid])

namespace MainPy

/-- The `/start` handler of src/main.py:285-303.  It upserts the sender,
applies the membership gate (admins bypass it), answers the welcome text
when no argument is given — and, for any argument (in particular a
`verify_<token>` deep link), falls through with no reply and no state
change: the dispatch to `handle_verification_start` is missing from this
revision (`handle_verification_start` is defined at line 304 but never
called). -/
def start (isAdmin member : Bool) (db : DB) (userId : Int) (args : List String) :
    DB × List Reply :=
  let db1 : DB := {db with users := ensure_user_in_db db.users userId}
  if !isAdmin && !member then (db1, [Reply.channelVerification])
  else
    match args with
    | [] => (db1, [Reply.welcome])
    | _ :: _ => (db1, [])

/-- `handle_verification_start` (src/main.py:304-351): resolve the token
(absent → "Invalid or expired verification link"), drop any stale
challenge of this (recipient, token) pair, draw a code through the
collision-retry loop, insert the new challenge and present the "Verify
Now" reveal-code control.  The generator's outputs are the stream `gen`;
the `except` fallback of lines 343-351 is the store-failure path and is
outside the state model. -/
def handle_verification_start (db : DB) (userId : Int) (encoded : String)
    (gen : Nat → String) : DB × List Reply :=
  match findLink db.links encoded with
  | none => (db, [Reply.invalidLink])
  | some _ =>
    let cs := delete_many_pair db.captchas userId encoded
    let code := pickCode cs gen
    ({db with captchas := cs ++ [⟨userId, encoded, code⟩]},
     [Reply.verifyPrompt encoded])

/-- The free-text handler `handle_message` (src/main.py:578-645): gate,
upsert, ignore non-private or empty messages, and treat a stripped 5-digit
message as a code submission: look up the sender's first live challenge;
on a match release the link through the one-shot button, delete the
consumed challenge and bump `verification_count` (or report expiry and
delete if the link is gone); on a mismatch delete the challenge and report
"Incorrect code".  With no live challenge the message is ignored — this
revision has no else-branch at line 598. -/
def handle_message (isAdmin member isPrivate : Bool) (db : DB) (userId : Int)
    (text : String) : DB × List Reply :=
  if !isAdmin && !member then (db, [Reply.channelVerification])
  else
    let db1 : DB := {db with users := ensure_user_in_db db.users userId}
    if !isPrivate || text == "" then (db1, [])
    else
      let t := pyStrip text
      if t.data.length == 5 && t.data.all Char.isDigit then
        match findCaptchaUser db1.captchas userId with
        | some c =>
          if t == c.captcha_code then
            match findLink db1.links c.encoded with
            | some l =>
              ({db1 with captchas := delete_one_user db1.captchas userId,
                         links := incVerification db1.links c.encoded},
               [Reply.releaseButton l.group_link])
            | none =>
              ({db1 with captchas := delete_one_user db1.captchas userId},
               [Reply.linkExpired])
          else
            ({db1 with captchas := delete_one_user db1.captchas userId},
             [Reply.incorrectCode])
        | none => (db1, [])
      else (db1, [])

/-- The `/protect` handler (src/main.py:489-576): gate, upsert, require a
private chat and an argument, validate the link against
`validate_telegram_link`, and insert the new ProtectedLink under the
generated token (`now` is the creation tick).  A failing insert — the
unique index on `encoded` — is caught by the generic `except` and answers
the generic error. -/
def protect (isAdmin member isPrivate : Bool) (db : DB) (userId : Int) (now : Nat)
    (args : List String) (token : String) : DB × List Reply :=
  if !isAdmin && !member then (db, [Reply.channelVerification])
  else
    let db1 : DB := {db with users := ensure_user_in_db db.users userId}
    if !isPrivate then (db1, [Reply.usePrivate])
    else
      match args with
      | [] => (db1, [Reply.protectUsage])
      | link :: _ =>
        if !(validate_telegram_link link) then (db1, [Reply.invalidTelegramLink])
        else if db1.links.any (fun l => l.encoded == token) then (db1, [Reply.genericError])
        else
          ({db1 with links := db1.links ++ [⟨token, link, userId, now, 0⟩]},
           [Reply.protectSuccess token])

/-- `broadcast_text` (src/main.py:671-735): snapshot the users collection,
refuse an empty directory, deliver once to every snapshot entry through
`broadcastLoop` (deleting the permanently unreachable), and answer the
final statistics report.  The intermediate progress edits (lines 702-712)
are transport-side UI and carry no state. -/
def broadcast_text (db : DB) (send : Int → Option String) :
    DB × List Reply × List Int :=
  if db.users.length == 0 then (db, [Reply.noUsers], [])
  else
    match broadcastLoop isPermanentFailure send db.users db.users 0 0 [] with
    | (s, f, users2, log) =>
      ({db with users := users2}, [Reply.broadcastReport s f], log)

/-- The `/broadcast` entry (src/main.py:649-669): a caller whose id string
differs from ADMIN_USER_ID gets the fixed admin-only rejection and nothing
else happens; an admin with arguments runs the text broadcast, without
arguments the usage text.  (The replied-message media path shares exactly
this authorization prologue.) -/
def broadcast (adminIdStr : String) (db : DB) (userId : Int) (args : List String)
    (send : Int → Option String) : DB × List Reply × List Int :=
  if toString userId != adminIdStr then (db, [Reply.adminOnly], [])
  else
    match args with
    | [] => (db, [Reply.broadcastUsage], [])
    | _ :: _ => broadcast_text db send

end MainPy

namespace DSRev

/-- `handle_message` of the deepseek revision
(src/deepseek_python_20251206_9072e4.py:247-301).  Differences from
`MainPy.handle_message`: no membership gate; an incorrect code is reported
but the challenge is NOT deleted (no delete in the else of line 296); with
no live challenge it reports "No pending verification found" (lines
297-301); the release is the literal link text, not a button. -/
def handle_message (isPrivate : Bool) (db : DB) (userId : Int) (text : String) :
    DB × List Reply :=
  let db1 : DB := {db with users := ensure_user_in_db db.users userId}
  if !isPrivate then (db1, [])
  else if text == "" then (db1, [])
  else
    let t := pyStrip text
    if t.data.length == 5 && t.data.all Char.isDigit then
      match findCaptchaUser db1.captchas userId with
      | some c =>
        if t == c.captcha_code then
          match findLink db1.links c.encoded with
          | some l =>
            ({db1 with captchas := delete_one_user db1.captchas userId,
                       links := incVerification db1.links c.encoded},
             [Reply.releaseText l.group_link])
          | none =>
            ({db1 with captchas := delete_one_user db1.captchas userId},
             [Reply.linkExpired])
        else (db1, [Reply.incorrectCode])
      | none => (db1, [Reply.noPendingVerification])
    else (db1, [])

/-- The permanently-unreachable test of deepseek:567:
`"bot was blocked" in str(e).lower() or "chat not found" in str(e).lower()`. -/
def is_permanent (e : String) : Bool :=
  occursIn "bot was blocked".data (pyLower e).data ||
  occursIn "chat not found".data (pyLower e).data

/-- `broadcasts_collection.update_one({"broadcast_id": bid}, {"$set": ...})`
(deepseek:585-595): set final counts and flip status to completed on the
first (by the unique index: the only) run with this id. -/
def updateRun : List BRun → String → Nat → Nat → List BRun
  | [], _, _, _ => []
  | r :: rs, bid, s, f =>
    if r.broadcast_id == bid then
      {r with sent_count := s, failed_count := f, status := "completed"} :: rs
    else r :: updateRun rs bid s f

/-- `broadcast_text` of the deepseek revision (deepseek:494-595): snapshot
users, insert the running BroadcastRun record, fan out, then delete
unreachable users and complete the run record with the final counts. -/
def broadcast_text (db : DB) (userId : Int) (bid : String)
    (send : Int → Option String) : DB × List Reply × List Int :=
  if db.users.length == 0 then (db, [Reply.noUsers], [])
  else
    let db1 : DB :=
      {db with broadcasts := db.broadcasts ++ [⟨bid, userId, db.users.length, 0, 0, "sending"⟩]}
    match broadcastLoop is_permanent send db1.users db1.users 0 0 [] with
    | (s, f, users2, log) =>
      ({db1 with users := users2, broadcasts := updateRun db1.broadcasts bid s f},
       [Reply.broadcastReport s f], log)

/-- The `/broadcast` entry of the deepseek revision (deepseek:303-327):
identical authorization prologue to `MainPy.broadcast`, then the text
broadcast (which also keeps a BroadcastRun record). -/
def broadcast (adminIdStr : String) (db : DB) (userId : Int) (args : List String)
    (bid : String) (send : Int → Option String) : DB × List Reply × List Int :=
  if toString userId != adminIdStr then (db, [Reply.adminOnly], [])
  else
    match args with
    | [] => (db, [Reply.broadcastUsage], [])
    | _ :: _ => broadcast_text db userId bid send

end DSRev

/-- Did delivery to `u` fail with a reason the revision's test classifies
as permanently unreachable?  (`perm` is the classifier, `send` the
delivery oracle.) -/
def permFailB (perm : String → Bool) (send : Int → Option String) (u : Int) : Bool :=
  match send u with
  | none => false
  | some e => perm e

/-- Field-wise frame relation between a link record and its successor:
everything but `verification_count` is unchanged, and the counter grew by
at most one. -/
def linkFrame (l l' : Link) : Prop :=
  l'.encoded = l.encoded ∧ l'.group_link = l.group_link ∧
  l'.created_by = l.created_by ∧ l'.created_at = l.created_at ∧
  (l'.verification_count = l.verification_count ∨
   l'.verification_count = l.verification_count + 1)

/-- Concrete fixture: one protected link, one live challenge for recipient
7 on that link, two known recipients. -/
def dbW : DB :=
  { links := [⟨"tok1", "https://t.me/joinchat/abc", 9, 0, 0⟩],
    captchas := [⟨7, "tok1", "12345"⟩],
    users := [7, 9],
    broadcasts := [] }

/-- Concrete fixture: one protected link and no live challenge. -/
def dbC3 : DB :=
  { links := [⟨"tok1", "https://t.me/joinchat/abc", 9, 0, 0⟩],
    captchas := [], users := [], broadcasts := [] }

/-- Concrete fixture: three recipients, no links. -/
def dbB : DB :=
  { links := [], captchas := [], users := [1, 2, 3], broadcasts := [] }

/-- Degenerate code generator: every draw is `"12345"`. -/
def genC3 : Nat → String := fun _ => "12345"

/-- Degenerate code generator: every draw is `"54321"`. -/
def genW : Nat → String := fun _ => "54321"

/-- Delivery oracle: recipient 2 is permanently unreachable, recipient 3
fails transiently, everyone else succeeds. -/
def sendB : Int → Option String := fun u =>
  if u == 2 then some "Forbidden: bot was blocked by the user"
  else if u == 3 then some "Timed out" else none

/-! Sanity evaluations of the embedded link grammar and the collision
retry loop on concrete inputs. -/

example : validate_telegram_link "https://t.me/joinchat/abcDEF-_" = true := by decide
example : validate_telegram_link "https://t.me/+abc123" = true := by decide
example : validate_telegram_link "https://t.me/mygroup" = true := by decide
example : validate_telegram_link "https://t.me/abcd" = false := by decide
example : validate_telegram_link "https://t.me/i/xyz" = true := by decide
example : validate_telegram_link "https://t.me/c/123456" = true := by decide
example : validate_telegram_link "https://t.me/c/12a" = false := by decide
example : validate_telegram_link "https://t.me/c/٥٥٥٥٥" = true := by decide
example : validate_telegram_link "https://t.me/c/१२३" = true := by decide
example : validate_telegram_link "https://telegram.me/joinchat/abc?x=1" = true := by decide
example : validate_telegram_link "http://t.me/mygroup" = false := by decide
example : validate_telegram_link "https://example.com/mygroup" = false := by decide
example : pickCode [⟨1, "t", "11111"⟩] (fun i => toString ((11111 + i) % 100000)) = "11112" := by decide
example : pickCode [⟨1, "t", "11111"⟩] (fun _ => "11111") = "11111" := by decide

/-! Helper lemmas. -/

theorem filter_eraseP_self {α} (p : α → Bool) (l : List α) :
    (l.eraseP p).filter p = (l.filter p).drop 1 := by
  induction l with
  | nil => rfl
  | cons a l ih =>
    by_cases h : p a
    · simp [List.eraseP_cons, List.filter_cons, h]
    · simp [List.eraseP_cons, List.filter_cons, h, ih]

theorem find?_eq_of_filter_singleton {α} (p : α → Bool) (l : List α) (c : α)
    (h : l.filter p = [c]) : l.find? p = some c := by
  induction l with
  | nil => simp at h
  | cons a l ih =>
    by_cases hp : p a
    · rw [List.filter_cons_of_pos hp] at h
      rw [List.find?_cons_of_pos _ hp]
      exact congrArg some (List.cons_eq_cons.mp h).1
    · rw [List.filter_cons_of_neg hp] at h
      rw [List.find?_cons_of_neg _ hp]
      exact ih h

theorem filter_filter_not {α} (p : α → Bool) (l : List α) :
    (l.filter (fun a => !(p a))).filter p = [] := by
  induction l with
  | nil => rfl
  | cons a l ih => by_cases h : p a <;> simp [List.filter_cons, h, ih]

theorem filter_not_idem {α} (p : α → Bool) (l : List α) :
    (l.filter (fun a => !(p a))).filter (fun a => !(p a))
      = l.filter (fun a => !(p a)) := by
  induction l with
  | nil => rfl
  | cons a l ih => by_cases h : p a <;> simp [List.filter_cons, h, ih]

theorem retryCode_mem (cs : List Captcha) (gen : Nat → String) :
    ∀ fuel i, ∃ k, i ≤ k ∧ k ≤ i + fuel ∧ retryCode cs gen i fuel = gen k := by
  intro fuel
  induction fuel with
  | zero => intro i; exact ⟨i, le_refl i, by omega, rfl⟩
  | succ n ih =>
    intro i
    by_cases h : hasCode cs (gen i) = true
    · obtain ⟨k, h1, h2, h3⟩ := ih (i + 1)
      exact ⟨k, by omega, by omega, by rw [retryCode, if_pos h]; exact h3⟩
    · exact ⟨i, le_refl i, by omega, by rw [retryCode, if_neg h]⟩

theorem retryCode_all_collide (cs : List Captcha) (gen : Nat → String) :
    ∀ fuel i, (∀ j, i ≤ j → j < i + fuel → hasCode cs (gen j) = true) →
      retryCode cs gen i fuel = gen (i + fuel) := by
  intro fuel
  induction fuel with
  | zero => intro i _; rfl
  | succ n ih =>
    intro i h
    have hi : hasCode cs (gen i) = true := h i (le_refl i) (by omega)
    have hr := ih (i + 1) (fun j hj1 hj2 => h j (by omega) (by omega))
    rw [retryCode, if_pos hi, hr]
    congr 1
    omega

/-! Claim C5: the spec fixes fail-open on membership-check errors; the
code of src/main.py fails closed. -/

/-- C5 counterexample: an errored membership check does not yield the same
gate outcome as one confirming membership — src/main.py:221-223 returns
False on an unexpected error while a confirmed member yields True. -/
theorem membership_error_not_fail_open :
    is_user_in_channel true ChatMemberResult.otherError
      ≠ is_user_in_channel true (ChatMemberResult.ok "member") := by decide

/-- C5 amended: src/main.py's membership check fails CLOSED.  Every error
outcome — any BadRequest text, Forbidden, and the unexpected-error handler
— yields the same gate outcome as a check that denies membership (e.g.
status "left"), namely False; with gating disabled every recipient
passes regardless of the oracle. -/
theorem membership_error_fails_closed (msg : String) (res : ChatMemberResult) :
    is_user_in_channel true (ChatMemberResult.badRequest msg) = false
    ∧ is_user_in_channel true ChatMemberResult.forbidden = false
    ∧ is_user_in_channel true ChatMemberResult.otherError = false
    ∧ is_user_in_channel true (ChatMemberResult.ok "left") = false
    ∧ is_user_in_channel false res = true :=
  ⟨rfl, rfl, rfl, rfl, rfl⟩

/-! Claim C8: non-operator broadcast invocation is rejected with no side
effects, in both revisions. -/

/-- C8: a caller whose id string differs from the configured operator id
receives exactly the fixed admin-only rejection, no delivery attempt is
made, and the links, captcha, users and broadcasts collections are all
untouched — in src/main.py and in the deepseek revision alike. -/
theorem broadcast_nonadmin_no_side_effects
    (adminIdStr : String) (db : DB) (userId : Int) (args : List String)
    (bid : String) (send : Int → Option String)
    (h : toString userId ≠ adminIdStr) :
    MainPy.broadcast adminIdStr db userId args send = (db, [Reply.adminOnly], [])
    ∧ DSRev.broadcast adminIdStr db userId args bid send = (db, [Reply.adminOnly], []) := by
  have hb : (toString userId != adminIdStr) = true := bne_iff_ne.mpr h
  constructor
  · unfold MainPy.broadcast
    rw [if_pos hb]
  · unfold DSRev.broadcast
    rw [if_pos hb]

/-- C8 witness: user 7 is not the operator "42"; the invocation is
rejected and the state returned unchanged in both revisions. -/
theorem broadcast_nonadmin_no_side_effects_witness :
    MainPy.broadcast "42" dbW 7 ["hello"] sendB = (dbW, [Reply.adminOnly], [])
    ∧ DSRev.broadcast "42" dbW 7 ["hello"] "b1" sendB = (dbW, [Reply.adminOnly], []) :=
  broadcast_nonadmin_no_side_effects "42" dbW 7 ["hello"] "b1" sendB (by decide)

/-! Claim C3: the verify_ deep-link entry.  In src/main.py the `start`
handler never dispatches its argument: `handle_verification_start` is
defined at line 304 but no call site exists, so a member opening a
verify_ deep link gets no reply and no challenge — while the continuation
itself implements exactly the claimed behaviour. -/

/-- C3: at the failing input (member recipient 1 opens the deep link
`verify_tok1`) src/main.py's `start` replies nothing and mints nothing;
the never-invoked continuation `handle_verification_start` at the same
input does behave as claimed — absent token answers the
"Invalid or expired verification link" failure and changes nothing,
present token mints the challenge and presents the reveal-code control. -/
theorem verify_deeplink_entry_dropped :
    MainPy.start false true dbC3 1 ["verify_tok1"] = ({dbC3 with users := [1]}, [])
    ∧ MainPy.handle_verification_start {dbC3 with links := []} 1 "tok1" genC3
        = ({dbC3 with links := []}, [Reply.invalidLink])
    ∧ MainPy.handle_verification_start dbC3 1 "tok1" genC3
        = ({dbC3 with captchas := [⟨1, "tok1", "12345"⟩]}, [Reply.verifyPrompt "tok1"]) := by
  refine ⟨by decide, by decide, by decide⟩

/-! Claim C9: bounded collision retry, insertion guaranteed. -/

/-- C9: challenge issuance always terminates and always inserts exactly
one challenge: the kept code is one of the at most six candidates
`gen 0 .. gen 5` (at most 5 regenerations); if every candidate collides
with a live code the loop gives up and keeps the still-colliding `gen 5`;
and `handle_verification_start` inserts the one new challenge record with
the kept code regardless. -/
theorem issuance_terminates_and_inserts
    (cs : List Captcha) (gen : Nat → String) (db : DB) (u : Int) (e : String) (l : Link)
    (hl : findLink db.links e = some l) :
    (∃ k, k ≤ 5 ∧ pickCode cs gen = gen k)
    ∧ ((∀ j, j < 5 → hasCode cs (gen j) = true) → pickCode cs gen = gen 5)
    ∧ ((MainPy.handle_verification_start db u e gen).1).captchas
        = delete_many_pair db.captchas u e
          ++ [⟨u, e, pickCode (delete_many_pair db.captchas u e) gen⟩] := by
  refine ⟨?_, ?_, ?_⟩
  · obtain ⟨k, _, h2, h3⟩ := retryCode_mem cs gen 5 0
    exact ⟨k, by omega, h3⟩
  · intro h
    have hr := retryCode_all_collide cs gen 5 0 (fun j _ hj2 => h j (by omega))
    simpa [pickCode] using hr
  · simp [MainPy.handle_verification_start, hl]

/-- C9 witness: with every draw equal to the already-live code "12345",
the loop stops after its five retries and the colliding code is inserted
anyway — duplicated 5-digit codes across pairs are tolerated. -/
theorem issuance_terminates_and_inserts_witness :
    ((∃ k, k ≤ 5 ∧ pickCode dbW.captchas genC3 = genC3 k)
    ∧ ((∀ j, j < 5 → hasCode dbW.captchas (genC3 j) = true) →
        pickCode dbW.captchas genC3 = genC3 5)
    ∧ ((MainPy.handle_verification_start dbC3 8 "tok1" genC3).1).captchas
        = delete_many_pair dbC3.captchas 8 "tok1"
          ++ [⟨8, "tok1", pickCode (delete_many_pair dbC3.captchas 8 "tok1") genC3⟩]) := by
  exact ⟨(issuance_terminates_and_inserts dbW.captchas genC3 dbC3 8 "tok1"
            ⟨"tok1", "https://t.me/joinchat/abc", 9, 0, 0⟩ (by decide)).1,
         (issuance_terminates_and_inserts dbW.captchas genC3 dbC3 8 "tok1"
            ⟨"tok1", "https://t.me/joinchat/abc", 9, 0, 0⟩ (by decide)).2.1,
         (issuance_terminates_and_inserts dbC3.captchas genC3 dbC3 8 "tok1"
            ⟨"tok1", "https://t.me/joinchat/abc", 9, 0, 0⟩ (by decide)).2.2⟩

theorem findCaptchaUser_eq_none (cs : List Captcha) (u : Int)
    (h : cs.filter (fun x => x.user_id == u) = []) :
    findCaptchaUser cs u = none := by
  unfold findCaptchaUser
  rw [List.find?_eq_none]
  intro x hx hpx
  have hm : x ∈ cs.filter (fun x => x.user_id == u) := List.mem_filter.mpr ⟨hx, hpx⟩
  rw [h] at hm
  exact absurd hm (List.not_mem_nil x)

theorem findLink_cons (a : Link) (ls : List Link) (e : String) :
    findLink (a :: ls) e = if a.encoded == e then some a else findLink ls e := by
  unfold findLink
  cases h : a.encoded == e <;> simp [List.find?, h]

theorem findLink_inc (ls : List Link) (e : String) (l : Link)
    (h : findLink ls e = some l) :
    findLink (incVerification ls e) e
      = some {l with verification_count := l.verification_count + 1} := by
  induction ls with
  | nil => simp [findLink] at h
  | cons a ls ih =>
    rw [findLink_cons] at h
    by_cases ha : (a.encoded == e) = true
    · rw [if_pos ha] at h
      have hal : a = l := Option.some.inj h
      subst hal
      unfold incVerification
      rw [if_pos ha, findLink_cons]
      simp [ha]
    · rw [if_neg ha] at h
      unfold incVerification
      rw [if_neg ha, findLink_cons, if_neg ha]
      exact ih h

/-! Branch characterizations of the two revisions' free-text handler. -/

theorem MainPy_release_eq (db : DB) (u : Int) (t : String) (c : Captcha) (l : Link)
    (hne : (t == "") = false)
    (hlen : (pyStrip t).data.length = 5)
    (hdig : (pyStrip t).data.all Char.isDigit = true)
    (hfind : findCaptchaUser db.captchas u = some c)
    (hc : (pyStrip t == c.captcha_code) = true)
    (hfl : findLink db.links c.encoded = some l) :
    MainPy.handle_message false true true db u t
      = ({db with
            users := ensure_user_in_db db.users u,
            captchas := delete_one_user db.captchas u,
            links := incVerification db.links c.encoded},
         [Reply.releaseButton l.group_link]) := by
  simp [MainPy.handle_message, hne, hlen, hdig, hfind, hc, hfl]

theorem MainPy_expired_eq (db : DB) (u : Int) (t : String) (c : Captcha)
    (hne : (t == "") = false)
    (hlen : (pyStrip t).data.length = 5)
    (hdig : (pyStrip t).data.all Char.isDigit = true)
    (hfind : findCaptchaUser db.captchas u = some c)
    (hc : (pyStrip t == c.captcha_code) = true)
    (hfl : findLink db.links c.encoded = none) :
    MainPy.handle_message false true true db u t
      = ({db with
            users := ensure_user_in_db db.users u,
            captchas := delete_one_user db.captchas u},
         [Reply.linkExpired]) := by
  simp [MainPy.handle_message, hne, hlen, hdig, hfind, hc, hfl]

theorem MainPy_wrong_eq (db : DB) (u : Int) (t : String) (c : Captcha)
    (hne : (t == "") = false)
    (hlen : (pyStrip t).data.length = 5)
    (hdig : (pyStrip t).data.all Char.isDigit = true)
    (hfind : findCaptchaUser db.captchas u = some c)
    (hc : (pyStrip t == c.captcha_code) = false) :
    MainPy.handle_message false true true db u t
      = ({db with
            users := ensure_user_in_db db.users u,
            captchas := delete_one_user db.captchas u},
         [Reply.incorrectCode]) := by
  simp [MainPy.handle_message, hne, hlen, hdig, hfind, hc]

theorem MainPy_nofind_eq (db : DB) (u : Int) (t : String)
    (hne : (t == "") = false)
    (hfind : findCaptchaUser db.captchas u = none) :
    MainPy.handle_message false true true db u t
      = ({db with users := ensure_user_in_db db.users u}, []) := by
  by_cases h5 : ((pyStrip t).data.length == 5 && (pyStrip t).data.all Char.isDigit) = true
  · simp [MainPy.handle_message, hne, hfind, h5]
  · simp [MainPy.handle_message, hne, hfind, h5]

theorem DSRev_release_eq (db : DB) (u : Int) (t : String) (c : Captcha) (l : Link)
    (hne : (t == "") = false)
    (hlen : (pyStrip t).data.length = 5)
    (hdig : (pyStrip t).data.all Char.isDigit = true)
    (hfind : findCaptchaUser db.captchas u = some c)
    (hc : (pyStrip t == c.captcha_code) = true)
    (hfl : findLink db.links c.encoded = some l) :
    DSRev.handle_message true db u t
      = ({db with
            users := ensure_user_in_db db.users u,
            captchas := delete_one_user db.captchas u,
            links := incVerification db.links c.encoded},
         [Reply.releaseText l.group_link]) := by
  simp [DSRev.handle_message, hne, hlen, hdig, hfind, hc, hfl]

theorem DSRev_nofind_eq (db : DB) (u : Int) (t : String)
    (hne : (t == "") = false)
    (hlen : (pyStrip t).data.length = 5)
    (hdig : (pyStrip t).data.all Char.isDigit = true)
    (hfind : findCaptchaUser db.captchas u = none) :
    DSRev.handle_message true db u t
      = ({db with users := ensure_user_in_db db.users u},
         [Reply.noPendingVerification]) := by
  simp [DSRev.handle_message, hne, hlen, hdig, hfind]

/-! Claim C7: /protect validation. -/

/-- C7: for an allowed caller in a private chat with a fresh token,
/protect rejects with the validation error and stores nothing exactly when
the URL fails `validate_telegram_link`, and stores the link under the
fresh token exactly when it matches. -/
theorem protect_validates_iff
    (db : DB) (u : Int) (now : Nat) (link : String) (rest : List String) (token : String)
    (hfresh : db.links.any (fun l => l.encoded == token) = false) :
    (validate_telegram_link link = false →
       MainPy.protect false true true db u now (link :: rest) token
         = ({db with users := ensure_user_in_db db.users u}, [Reply.invalidTelegramLink]))
    ∧ (validate_telegram_link link = true →
       MainPy.protect false true true db u now (link :: rest) token
         = ({db with
               users := ensure_user_in_db db.users u,
               links := db.links ++ [⟨token, link, u, now, 0⟩]},
            [Reply.protectSuccess token])) := by
  constructor
  · intro hv
    simp [MainPy.protect, hv]
  · intro hv
    simp [MainPy.protect, hv, hfresh]

/-- C7 witness: the grammar decides storage on concrete inputs — a valid
joinchat link is stored under the fresh token, a /c/ link written with
Arabic-Indic digits (Python's `\d` accepts any Unicode decimal digit) is
likewise stored, and an https URL on a foreign host is rejected with the
validation error and stores nothing. -/
theorem protect_validates_iff_witness :
    MainPy.protect false true true dbW 7 3 ["https://t.me/joinchat/xyz"] "freshtok"
      = ({dbW with
            users := ensure_user_in_db dbW.users 7,
            links := dbW.links ++ [⟨"freshtok", "https://t.me/joinchat/xyz", 7, 3, 0⟩]},
         [Reply.protectSuccess "freshtok"])
    ∧ MainPy.protect false true true dbW 7 3 ["https://t.me/c/٥٥٥٥٥"] "freshtok"
      = ({dbW with
            users := ensure_user_in_db dbW.users 7,
            links := dbW.links ++ [⟨"freshtok", "https://t.me/c/٥٥٥٥٥", 7, 3, 0⟩]},
         [Reply.protectSuccess "freshtok"])
    ∧ MainPy.protect false true true dbW 7 3 ["https://example.com/group"] "freshtok"
      = ({dbW with users := ensure_user_in_db dbW.users 7}, [Reply.invalidTelegramLink]) :=
  ⟨(protect_validates_iff dbW 7 3 "https://t.me/joinchat/xyz" [] "freshtok" (by decide)).2
      (by decide),
   (protect_validates_iff dbW 7 3 "https://t.me/c/٥٥٥٥٥" [] "freshtok" (by decide)).2
      (by decide),
   (protect_validates_iff dbW 7 3 "https://example.com/group" [] "freshtok" (by decide)).1
      (by decide)⟩

/-! Claim C2: consume-on-read, regardless of match. -/

/-- C2: a recipient holding a (single) live challenge loses it on the
first 5-digit submission whatever its content: matching code with live
link, matching code with expired link, and wrong code all delete the
challenge (src/main.py:626, 638, 645), so afterwards no live challenge
remains for the recipient and at most one guess per issuance is
possible. -/
theorem first_submission_consumes_challenge
    (db : DB) (u : Int) (c : Captcha) (t : String)
    (hone : db.captchas.filter (fun x => x.user_id == u) = [c])
    (hne : (t == "") = false)
    (hlen : (pyStrip t).data.length = 5)
    (hdig : (pyStrip t).data.all Char.isDigit = true) :
    ((MainPy.handle_message false true true db u t).1).captchas.filter
      (fun x => x.user_id == u) = [] := by
  have hfind : findCaptchaUser db.captchas u = some c :=
    find?_eq_of_filter_singleton _ _ _ hone
  have hdel : (delete_one_user db.captchas u).filter (fun x => x.user_id == u) = [] := by
    unfold delete_one_user
    rw [filter_eraseP_self, hone]
    rfl
  by_cases hc : (pyStrip t == c.captcha_code) = true
  · cases hfl : findLink db.links c.encoded with
    | some l => rw [MainPy_release_eq db u t c l hne hlen hdig hfind hc hfl]; exact hdel
    | none => rw [MainPy_expired_eq db u t c hne hlen hdig hfind hc hfl]; exact hdel
  · rw [MainPy_wrong_eq db u t c hne hlen hdig hfind (Bool.eq_false_iff.mpr hc)]
    exact hdel

/-- C2 witness: recipient 7 holds the challenge "12345" and submits the
wrong code "99999"; afterwards no live challenge remains for them. -/
theorem first_submission_consumes_challenge_witness :
    ((MainPy.handle_message false true true dbW 7 "99999").1).captchas.filter
      (fun x => x.user_id == 7) = [] :=
  first_submission_consumes_challenge dbW 7 ⟨7, "tok1", "12345"⟩ "99999"
    (by decide) (by decide) (by decide) (by decide)

/-! Claim C4: idempotent re-issuance. -/

/-- C4: re-entering the verification flow for a pending pair replaces the
challenge wholesale: afterwards the pair's live challenges are exactly the
one new record carrying the freshly drawn code, challenges of other pairs
are untouched, and any old challenge of the pair (with a different code)
is gone.  The pending-pair hypothesis records the claim's re-entry
scenario; the replacement behaviour holds for any entry, so the proof does
not consume it. -/
theorem reissuance_yields_single_challenge
    (db : DB) (u : Int) (e : String) (gen : Nat → String) (l : Link) (c0 : Captcha)
    (hl : findLink db.links e = some l)
    (_hmem : c0 ∈ db.captchas) (hu : c0.user_id = u) (he : c0.encoded = e) :
    ((MainPy.handle_verification_start db u e gen).1).captchas.filter
        (fun c => c.user_id == u && c.encoded == e)
      = [⟨u, e, pickCode (delete_many_pair db.captchas u e) gen⟩]
    ∧ ((MainPy.handle_verification_start db u e gen).1).captchas.filter
        (fun c => !(c.user_id == u && c.encoded == e))
      = db.captchas.filter (fun c => !(c.user_id == u && c.encoded == e))
    ∧ (c0.captcha_code ≠ pickCode (delete_many_pair db.captchas u e) gen →
        c0 ∉ ((MainPy.handle_verification_start db u e gen).1).captchas) := by
  have hcap : ((MainPy.handle_verification_start db u e gen).1).captchas
      = delete_many_pair db.captchas u e
        ++ [⟨u, e, pickCode (delete_many_pair db.captchas u e) gen⟩] := by
    simp [MainPy.handle_verification_start, hl]
  refine ⟨?_, ?_, ?_⟩
  · rw [hcap, List.filter_append]
    unfold delete_many_pair
    rw [filter_filter_not]
    simp
  · rw [hcap, List.filter_append]
    unfold delete_many_pair
    rw [filter_not_idem]
    simp
  · intro hcode hmem'
    rw [hcap] at hmem'
    rcases List.mem_append.mp hmem' with hmem2 | hmem2
    · unfold delete_many_pair at hmem2
      have hpred := (List.mem_filter.mp hmem2).2
      simp [hu, he] at hpred
    · have hc0 : c0 = ⟨u, e, pickCode (delete_many_pair db.captchas u e) gen⟩ := by
        simpa using hmem2
      exact hcode (by rw [hc0])

/-- C4 witness: recipient 7 re-enters for token tok1 while holding the
challenge "12345"; afterwards exactly the new "54321" challenge is live
for the pair and the old record is gone. -/
theorem reissuance_yields_single_challenge_witness :
    ((MainPy.handle_verification_start dbW 7 "tok1" genW).1).captchas.filter
        (fun c => c.user_id == 7 && c.encoded == "tok1")
      = [⟨7, "tok1", pickCode (delete_many_pair dbW.captchas 7 "tok1") genW⟩]
    ∧ (⟨7, "tok1", "12345"⟩ : Captcha) ∉
        ((MainPy.handle_verification_start dbW 7 "tok1" genW).1).captchas :=
  ⟨(reissuance_yields_single_challenge dbW 7 "tok1" genW
      ⟨"tok1", "https://t.me/joinchat/abc", 9, 0, 0⟩ ⟨7, "tok1", "12345"⟩
      (by decide) (by decide) rfl rfl).1,
   (reissuance_yields_single_challenge dbW 7 "tok1" genW
      ⟨"tok1", "https://t.me/joinchat/abc", 9, 0, 0⟩ ⟨7, "tok1", "12345"⟩
      (by decide) (by decide) rfl rfl).2.2 (by decide)⟩

/-! Claim C1: one-shot challenge consumption.  The release/consume part
holds in both revisions; the "no pending verification" report on the
repeated submission exists only in the deepseek revision — src/main.py's
handler has no else-branch at line 598 and ignores the repeat silently. -/

/-- C1 counterexample: in src/main.py an immediately repeated correct
submission is NOT answered with a "no pending verification" report.  The
first submission of "12345" releases the link; the second produces no
reply at all. -/
theorem repeat_submission_silent_counterexample :
    (MainPy.handle_message false true true dbW 7 "12345").2
      = [Reply.releaseButton "https://t.me/joinchat/abc"]
    ∧ (MainPy.handle_message false true true
        (MainPy.handle_message false true true dbW 7 "12345").1 7 "12345").2 = []
    ∧ Reply.noPendingVerification ∉
        (MainPy.handle_message false true true
          (MainPy.handle_message false true true dbW 7 "12345").1 7 "12345").2 :=
  ⟨by decide, by decide, by decide⟩

/-- C1 amended: for a recipient whose sole live challenge carries the
submitted (well-formed 5-digit) code and whose link is still present, the
first submission releases the protected URL (one-shot direct-open control
in src/main.py, literal text in the deepseek revision), increments the
link's verification_count and deletes the challenge; an immediately
repeated identical submission never performs a second release nor a second
increment — src/main.py ignores it with no reply at all, while the
deepseek revision reports "no pending verification". -/
theorem one_shot_release_consumption
    (db : DB) (u : Int) (c : Captcha) (l : Link) (t : String)
    (hone : db.captchas.filter (fun x => x.user_id == u) = [c])
    (hne : (t == "") = false)
    (hcode : (pyStrip t == c.captcha_code) = true)
    (hlen : (pyStrip t).data.length = 5)
    (hdig : (pyStrip t).data.all Char.isDigit = true)
    (hl : findLink db.links c.encoded = some l) :
    (MainPy.handle_message false true true db u t).2 = [Reply.releaseButton l.group_link]
    ∧ findLink ((MainPy.handle_message false true true db u t).1).links c.encoded
        = some {l with verification_count := l.verification_count + 1}
    ∧ ((MainPy.handle_message false true true db u t).1).captchas.filter
        (fun x => x.user_id == u) = []
    ∧ (MainPy.handle_message false true true
        (MainPy.handle_message false true true db u t).1 u t).2 = []
    ∧ ((MainPy.handle_message false true true
        (MainPy.handle_message false true true db u t).1 u t).1).links
        = ((MainPy.handle_message false true true db u t).1).links
    ∧ (DSRev.handle_message true db u t).2 = [Reply.releaseText l.group_link]
    ∧ (DSRev.handle_message true (DSRev.handle_message true db u t).1 u t).2
        = [Reply.noPendingVerification]
    ∧ ((DSRev.handle_message true (DSRev.handle_message true db u t).1 u t).1).links
        = ((DSRev.handle_message true db u t).1).links
    ∧ ((DSRev.handle_message true (DSRev.handle_message true db u t).1 u t).1).captchas
        = ((DSRev.handle_message true db u t).1).captchas := by
  have hfind : findCaptchaUser db.captchas u = some c :=
    find?_eq_of_filter_singleton _ _ _ hone
  have hdel : (delete_one_user db.captchas u).filter (fun x => x.user_id == u) = [] := by
    unfold delete_one_user
    rw [filter_eraseP_self, hone]
    rfl
  have hnone : findCaptchaUser (delete_one_user db.captchas u) u = none :=
    findCaptchaUser_eq_none _ _ hdel
  have h1 := MainPy_release_eq db u t c l hne hlen hdig hfind hcode hl
  have h12 : (MainPy.handle_message false true true db u t).1
      = {db with
          users := ensure_user_in_db db.users u,
          captchas := delete_one_user db.captchas u,
          links := incVerification db.links c.encoded} := by
    rw [h1]
  have h2 := MainPy_nofind_eq
      {db with
        users := ensure_user_in_db db.users u,
        captchas := delete_one_user db.captchas u,
        links := incVerification db.links c.encoded} u t hne hnone
  have d1 := DSRev_release_eq db u t c l hne hlen hdig hfind hcode hl
  have d12 : (DSRev.handle_message true db u t).1
      = {db with
          users := ensure_user_in_db db.users u,
          captchas := delete_one_user db.captchas u,
          links := incVerification db.links c.encoded} := by
    rw [d1]
  have d2 := DSRev_nofind_eq
      {db with
        users := ensure_user_in_db db.users u,
        captchas := delete_one_user db.captchas u,
        links := incVerification db.links c.encoded} u t hne hlen hdig hnone
  refine ⟨?_, ?_, ?_, ?_, ?_, ?_, ?_, ?_, ?_⟩
  · rw [h1]
  · rw [h12]
    exact findLink_inc db.links c.encoded l hl
  · rw [h12]
    exact hdel
  · rw [h12, h2]
  · rw [h12, h2]
  · rw [d1]
  · rw [d12, d2]
  · rw [d12, d2]
  · rw [d12, d2]

/-- C1 witness: recipient 7 holds the sole challenge "12345" for the live
link tok1; the concrete two-submission run exhibits every clause of the
amended claim. -/
theorem one_shot_release_consumption_witness :
    (MainPy.handle_message false true true dbW 7 "12345").2
      = [Reply.releaseButton "https://t.me/joinchat/abc"]
    ∧ findLink ((MainPy.handle_message false true true dbW 7 "12345").1).links "tok1"
        = some ⟨"tok1", "https://t.me/joinchat/abc", 9, 0, 1⟩
    ∧ ((MainPy.handle_message false true true dbW 7 "12345").1).captchas.filter
        (fun x => x.user_id == 7) = []
    ∧ (MainPy.handle_message false true true
        (MainPy.handle_message false true true dbW 7 "12345").1 7 "12345").2 = []
    ∧ ((MainPy.handle_message false true true
        (MainPy.handle_message false true true dbW 7 "12345").1 7 "12345").1).links
        = ((MainPy.handle_message false true true dbW 7 "12345").1).links
    ∧ (DSRev.handle_message true dbW 7 "12345").2
        = [Reply.releaseText "https://t.me/joinchat/abc"]
    ∧ (DSRev.handle_message true (DSRev.handle_message true dbW 7 "12345").1 7 "12345").2
        = [Reply.noPendingVerification]
    ∧ ((DSRev.handle_message true (DSRev.handle_message true dbW 7 "12345").1 7 "12345").1).links
        = ((DSRev.handle_message true dbW 7 "12345").1).links
    ∧ ((DSRev.handle_message true (DSRev.handle_message true dbW 7 "12345").1 7 "12345").1).captchas
        = ((DSRev.handle_message true dbW 7 "12345").1).captchas :=
  one_shot_release_consumption dbW 7 ⟨7, "tok1", "12345"⟩
    ⟨"tok1", "https://t.me/joinchat/abc", 9, 0, 0⟩ "12345"
    (by decide) (by decide) (by decide) (by decide) (by decide) (by decide)

/-! Claim C6: broadcast partial failure.  Loop invariants first. -/

theorem broadcastLoop_log (perm : String → Bool) (send : Int → Option String) :
    ∀ (todo users : List Int) (s f : Nat) (log : List Int),
      (broadcastLoop perm send todo users s f log).2.2.2 = log ++ todo := by
  intro todo
  induction todo with
  | nil => intro users s f log; simp [broadcastLoop]
  | cons uid rest ih =>
    intro users s f log
    cases hs : send uid with
    | none =>
      simp only [broadcastLoop, hs]
      rw [ih]
      simp
    | some e =>
      simp only [broadcastLoop, hs]
      rw [ih]
      simp

theorem broadcastLoop_sum (perm : String → Bool) (send : Int → Option String) :
    ∀ (todo users : List Int) (s f : Nat) (log : List Int),
      (broadcastLoop perm send todo users s f log).1
        + (broadcastLoop perm send todo users s f log).2.1 = s + f + todo.length := by
  intro todo
  induction todo with
  | nil => intro users s f log; simp [broadcastLoop]
  | cons uid rest ih =>
    intro users s f log
    cases hs : send uid with
    | none =>
      simp only [broadcastLoop, hs]
      rw [ih]
      simp only [List.length_cons]
      omega
    | some e =>
      simp only [broadcastLoop, hs]
      rw [ih]
      simp only [List.length_cons]
      omega

theorem eraseP_eq_filter_of_nodup (xs : List Int) (x : Int) (h : xs.Nodup) :
    xs.eraseP (fun v => v == x) = xs.filter (fun v => v != x) := by
  induction xs with
  | nil => rfl
  | cons a l ih =>
    rw [List.nodup_cons] at h
    by_cases ha : a = x
    · subst ha
      rw [List.eraseP_cons, List.filter_cons]
      simp only [beq_self_eq_true, cond_true, bne_self_eq_false, Bool.false_eq_true, if_false]
      rw [eq_comm, List.filter_eq_self]
      intro b hb
      simp only [bne_iff_ne, ne_eq]
      exact fun hba => h.1 (hba ▸ hb)
    · have hba : (a == x) = false := beq_eq_false_iff_ne.mpr ha
      have hbne : (a != x) = true := bne_iff_ne.mpr ha
      rw [List.eraseP_cons, List.filter_cons]
      simp only [hba, cond_false, hbne, if_true]
      rw [ih h.2]

theorem broadcastLoop_users_final (perm : String → Bool) (send : Int → Option String) :
    ∀ (todo users : List Int) (s f : Nat) (log : List Int), users.Nodup →
      (broadcastLoop perm send todo users s f log).2.2.1
        = users.filter (fun u => !(todo.contains u && permFailB perm send u)) := by
  intro todo
  induction todo with
  | nil =>
    intro users s f log _
    simp [broadcastLoop]
  | cons uid rest ih =>
    intro users s f log h
    cases hs : send uid with
    | none =>
      simp only [broadcastLoop, hs]
      rw [ih users (s + 1) f (log ++ [uid]) h]
      apply List.filter_congr
      intro b _
      by_cases hbu : b = uid
      · subst hbu
        simp [permFailB, hs, List.contains_cons]
      · have hb' : (b == uid) = false := beq_eq_false_iff_ne.mpr hbu
        simp [List.contains_cons, hb', hbu]
    | some e =>
      by_cases hp : perm e = true
      · simp only [broadcastLoop, hs, hp, if_true]
        rw [eraseP_eq_filter_of_nodup users uid h]
        rw [ih (users.filter (fun v => v != uid)) s (f + 1) (log ++ [uid])
              (h.filter (fun v => v != uid))]
        rw [List.filter_filter]
        apply List.filter_congr
        intro b _
        by_cases hbu : b = uid
        · subst hbu
          simp [permFailB, hs, hp, List.contains_cons]
        · have hb' : (b == uid) = false := beq_eq_false_iff_ne.mpr hbu
          have hb2 : (b != uid) = true := bne_iff_ne.mpr hbu
          simp [List.contains_cons, hb', hb2, hbu]
      · have hp' : perm e = false := Bool.eq_false_iff.mpr hp
        simp only [broadcastLoop, hs, hp', Bool.false_eq_true, if_false]
        rw [ih users s (f + 1) (log ++ [uid]) h]
        apply List.filter_congr
        intro b _
        by_cases hbu : b = uid
        · subst hbu
          simp [permFailB, hs, hp', List.contains_cons]
        · have hb' : (b == uid) = false := beq_eq_false_iff_ne.mpr hbu
          simp [List.contains_cons, hb', hbu]

/-- C6: over a duplicate-free nonempty snapshot, the text broadcast of
src/main.py attempts delivery to every snapshot recipient exactly once and
in order, its final report counts satisfy succeeded + failed = N, the
recipients whose delivery failed permanently (reason containing "blocked"
or "chat not found") — and only those — are deleted from the users
collection, and links and challenges are untouched. -/
theorem broadcast_partial_failure
    (db : DB) (send : Int → Option String)
    (hnd : db.users.Nodup) (hpos : 0 < db.users.length) :
    (MainPy.broadcast_text db send).2.2 = db.users
    ∧ (∃ s f, s + f = db.users.length
        ∧ (MainPy.broadcast_text db send).2.1 = [Reply.broadcastReport s f])
    ∧ ((MainPy.broadcast_text db send).1).users
        = db.users.filter (fun u => !(permFailB isPermanentFailure send u))
    ∧ ((MainPy.broadcast_text db send).1).links = db.links
    ∧ ((MainPy.broadcast_text db send).1).captchas = db.captchas := by
  have hz : (db.users.length == 0) = false :=
    beq_eq_false_iff_ne.mpr (Nat.pos_iff_ne_zero.mp hpos)
  rcases hr : broadcastLoop isPermanentFailure send db.users db.users 0 0 []
    with ⟨s, f, users2, log⟩
  have heq : MainPy.broadcast_text db send
      = ({db with users := users2}, [Reply.broadcastReport s f], log) := by
    simp [MainPy.broadcast_text, hz, hr]
  have hlog := broadcastLoop_log isPermanentFailure send db.users db.users 0 0 []
  rw [hr] at hlog
  have hsum := broadcastLoop_sum isPermanentFailure send db.users db.users 0 0 []
  rw [hr] at hsum
  have husers := broadcastLoop_users_final isPermanentFailure send
    db.users db.users 0 0 [] hnd
  rw [hr] at husers
  refine ⟨?_, ⟨s, f, ?_, ?_⟩, ?_, ?_, ?_⟩
  · rw [heq]
    simpa using hlog
  · simpa using hsum
  · rw [heq]
  · rw [heq]
    have hcontains : ∀ u ∈ db.users, db.users.contains u = true := by
      intro u hu
      exact List.elem_eq_true_of_mem hu
    calc ({db with users := users2} : DB).users = users2 := rfl
      _ = db.users.filter (fun u => !(db.users.contains u && permFailB isPermanentFailure send u)) := by
          simpa using husers
      _ = db.users.filter (fun u => !(permFailB isPermanentFailure send u)) := by
          apply List.filter_congr
          intro b hb
          rw [hcontains b hb]
          simp
  · rw [heq]
  · rw [heq]

/-- C6 witness: three recipients; recipient 2 is blocked (permanent),
recipient 3 times out (transient).  Every recipient is attempted once,
the report counts sum to 3, and exactly recipient 2 is removed. -/
theorem broadcast_partial_failure_witness :
    (MainPy.broadcast_text dbB sendB).2.2 = dbB.users
    ∧ (∃ s f, s + f = dbB.users.length
        ∧ (MainPy.broadcast_text dbB sendB).2.1 = [Reply.broadcastReport s f])
    ∧ ((MainPy.broadcast_text dbB sendB).1).users
        = dbB.users.filter (fun u => !(permFailB isPermanentFailure sendB u))
    ∧ ((MainPy.broadcast_text dbB sendB).1).links = dbB.links
    ∧ ((MainPy.broadcast_text dbB sendB).1).captchas = dbB.captchas :=
  broadcast_partial_failure dbB sendB (by decide) (by decide)

/-! Claim C10: frame condition on link records. -/

theorem linkFrame_refl_all (ls : List Link) : List.Forall₂ linkFrame ls ls := by
  induction ls with
  | nil => exact List.Forall₂.nil
  | cons a l ih => exact List.Forall₂.cons ⟨rfl, rfl, rfl, rfl, Or.inl rfl⟩ ih

theorem linkFrame_inc_all (ls : List Link) (e : String) :
    List.Forall₂ linkFrame ls (incVerification ls e) := by
  induction ls with
  | nil => exact List.Forall₂.nil
  | cons a l ih =>
    by_cases h : (a.encoded == e) = true
    · unfold incVerification
      rw [if_pos h]
      exact List.Forall₂.cons ⟨rfl, rfl, rfl, rfl, Or.inr rfl⟩ (linkFrame_refl_all l)
    · unfold incVerification
      rw [if_neg h]
      exact List.Forall₂.cons ⟨rfl, rfl, rfl, rfl, Or.inl rfl⟩ ih

theorem zip_self_snd_eq {α : Type} (l : List α) : ∀ p ∈ l.zip l, p.2 = p.1 := by
  induction l with
  | nil => intro p hp; simp at hp
  | cons a t ih =>
    intro p hp
    rw [List.zip_cons_cons] at hp
    rcases List.mem_cons.mp hp with h | h
    · rw [h]
    · exact ih p h

theorem incVerification_frame_other (ls : List Link) (e : String) :
    ∀ p ∈ ls.zip (incVerification ls e), p.1.encoded ≠ e → p.2 = p.1 := by
  induction ls with
  | nil => intro p hp; simp [incVerification] at hp
  | cons a t ih =>
    intro p hp hne
    by_cases h : (a.encoded == e) = true
    · unfold incVerification at hp
      rw [if_pos h, List.zip_cons_cons] at hp
      rcases List.mem_cons.mp hp with h2 | h2
      · exfalso
        rw [h2] at hne
        exact hne (by simpa using h)
      · exact zip_self_snd_eq t p h2
    · unfold incVerification at hp
      rw [if_neg h, List.zip_cons_cons] at hp
      rcases List.mem_cons.mp hp with h2 | h2
      · rw [h2]
      · exact ih p h2 hne

/-- Branch analysis of the free-text handler's effect on the links
collection: either it is left exactly unchanged, or the submission was a
correct code for a live challenge whose link is still present and the only
write is the verification_count bump on that link's token. -/
theorem MainPy_handle_message_links_cases
    (a m p : Bool) (db : DB) (u : Int) (t : String) :
    ((MainPy.handle_message a m p db u t).1).links = db.links
    ∨ ∃ c, findCaptchaUser db.captchas u = some c
        ∧ (pyStrip t == c.captcha_code) = true
        ∧ (findLink db.links c.encoded).isSome = true
        ∧ ((MainPy.handle_message a m p db u t).1).links
            = incVerification db.links c.encoded := by
  simp only [MainPy.handle_message]
  by_cases g1 : (!a && !m) = true
  · rw [if_pos g1]
    exact Or.inl rfl
  · rw [if_neg g1]
    by_cases g2 : (!p || t == "") = true
    · rw [if_pos g2]
      exact Or.inl rfl
    · rw [if_neg g2]
      by_cases g3 : ((pyStrip t).data.length == 5 && (pyStrip t).data.all Char.isDigit) = true
      · rw [if_pos g3]
        cases hf : findCaptchaUser db.captchas u with
        | none => exact Or.inl rfl
        | some c =>
          dsimp only
          by_cases g4 : (pyStrip t == c.captcha_code) = true
          · rw [if_pos g4]
            cases hl : findLink db.links c.encoded with
            | none => exact Or.inl rfl
            | some l => exact Or.inr ⟨c, rfl, g4, by rw [hl]; rfl, rfl⟩
          · rw [if_neg g4]
            exact Or.inl rfl
      · rw [if_neg g3]
        exact Or.inl rfl

/-- C10: starting or restarting verification never writes the links
collection; the free-text handler changes link records only field-wise by
at most a verification_count bump (all other fields of every record are
preserved, record for record); any actual change means the submission was
a correct code for a live challenge with its link still present, and then
the write is exactly the counter bump on that token — non-matching
records are bit-for-bit unchanged. -/
theorem releaseCount_frame :
    (∀ db u e gen, ((MainPy.handle_verification_start db u e gen).1).links = db.links)
    ∧ (∀ isAdmin member db u args,
        ((MainPy.start isAdmin member db u args).1).links = db.links)
    ∧ (∀ isAdmin member isPrivate db u t,
        List.Forall₂ linkFrame db.links
          ((MainPy.handle_message isAdmin member isPrivate db u t).1).links)
    ∧ (∀ isAdmin member isPrivate db u t,
        ((MainPy.handle_message isAdmin member isPrivate db u t).1).links ≠ db.links →
        ∃ c, findCaptchaUser db.captchas u = some c
          ∧ (pyStrip t == c.captcha_code) = true
          ∧ (findLink db.links c.encoded).isSome = true
          ∧ ((MainPy.handle_message isAdmin member isPrivate db u t).1).links
              = incVerification db.links c.encoded)
    ∧ (∀ (ls : List Link) (e : String),
        ∀ pr ∈ ls.zip (incVerification ls e), pr.1.encoded ≠ e → pr.2 = pr.1) := by
  refine ⟨?_, ?_, ?_, ?_, incVerification_frame_other⟩
  · intro db u e gen
    cases h : findLink db.links e <;> simp [MainPy.handle_verification_start, h]
  · intro isAdmin member db u args
    unfold MainPy.start
    split
    · rfl
    · split <;> rfl
  · intro isAdmin member isPrivate db u t
    rcases MainPy_handle_message_links_cases isAdmin member isPrivate db u t with h | ⟨c, _, _, _, h⟩
    · rw [h]
      exact linkFrame_refl_all db.links
    · rw [h]
      exact linkFrame_inc_all db.links c.encoded
  · intro isAdmin member isPrivate db u t hne
    rcases MainPy_handle_message_links_cases isAdmin member isPrivate db u t with h | hr
    · exact absurd h hne
    · exact hr

/-- C10 witness: on the concrete release run the frame theorem yields the
live challenge, the matching code, the live link and the exact counter
bump. -/
theorem releaseCount_frame_witness :
    ∃ c, findCaptchaUser dbW.captchas 7 = some c
      ∧ (pyStrip "12345" == c.captcha_code) = true
      ∧ (findLink dbW.links c.encoded).isSome = true
      ∧ ((MainPy.handle_message false true true dbW 7 "12345").1).links
          = incVerification dbW.links c.encoded :=
  releaseCount_frame.2.2.2.1 false true true dbW 7 "12345" (by decide)
